import Mathlib

/-
Verification of erpnext_jofotara (Jordan JoFotara e-invoicing app) against its
natural-language specification.

Shallow embedding notes:
* Python `Decimal` values are modelled as exact rationals (ℚ).  All invoice
  arithmetic in the source (`qty * rate - disc`, `net * rate / 100`, sums)
  stays well within Decimal's 28-digit context, where Decimal arithmetic is
  exact, so ℚ is a faithful model.
* `Decimal.quantize(Decimal("0.001"), ROUND_HALF_UP)` is `roundHalfUp3`:
  round to a multiple of 1/1000, ties away from zero.
* `_fmt` renders the quantized Decimal with three fractional digits; two
  emitted amounts are string-equal iff the quantized rationals are equal
  (all emitted amounts in the claims are non-negative, so the "-0.000"
  formatting corner does not arise).  Emitted amounts are therefore modelled
  as the post-rounding rationals.
* frappe record reads/writes are modelled as explicit record values; the
  builder returns the (unchanged) invoice record alongside the XML model,
  mirroring the absence of any invoice-record write in `build_invoice_xml`.
-/

namespace JoFotara

/-- Models `_q3` from transform.py: `Decimal(str(x)).quantize(Decimal("0.001"),
rounding=ROUND_HALF_UP)` — rounding to 3 decimal digits, ties away from zero. -/
def roundHalfUp3 (x : ℚ) : ℚ :=
  if 0 ≤ x then ((⌊x * 1000 + 1/2⌋ : ℤ) : ℚ) / 1000
  else -(((⌊(-x) * 1000 + 1/2⌋ : ℤ) : ℚ) / 1000)

/-- A row of the Sales Invoice `taxes` child table (field `rate`). -/
structure TaxRow where
  rate : ℚ
deriving DecidableEq

/-- A Sales Invoice item row: the fields read by `build_invoice_xml`.
`item_tax_rate` is the JSON tax-rate map of the item, modelled as the parsed
ordered key/value list; a missing, empty or unparsable JSON string is `[]`
(all three make `_parse_item_vat_rate` fall through to `Decimal("0")`). -/
structure InvoiceItem where
  qty : ℚ
  rate : ℚ
  discount_amount : ℚ
  item_tax_rate : List (String × ℚ)
deriving DecidableEq

/-- The Sales Invoice record: the fields read or written by the code under
verification (transform.py and invoices.py). -/
structure SalesInvoice where
  name : String
  is_return : Bool
  discount_amount : ℚ
  items : List InvoiceItem
  taxes : List TaxRow
  jofotara_uuid : String
  jofotara_qr : String
  jofotara_status : String
  jofotara_sent_at : String
deriving DecidableEq

/-- Models `_parse_item_vat_rate`: first value in the item's tax-rate map with
`abs(rate) > 0`, else `Decimal("0")`. -/
def parseItemVatRate : List (String × ℚ) → ℚ
  | [] => 0
  | kv :: rest => if |kv.2| > 0 then kv.2 else parseItemVatRate rest

/-- Models `_global_vat_rate`: first tax row with `abs(rate) > 0`, else 16.0. -/
def globalVatRate : List TaxRow → ℚ
  | [] => 16
  | t :: rest => if |t.rate| > 0 then t.rate else globalVatRate rest

/-- The per-line dictionary built inside the `for it in doc.items` loop of
`build_invoice_xml` (the fields the claims are about; `name`/`unit_code`
are not modelled). -/
structure LineData where
  qty : ℚ
  unit_price : ℚ
  line_net : ℚ
  vat_rate : ℚ
  line_vat : ℚ
  line_disc : ℚ
deriving DecidableEq

/-- One iteration of the item loop of `build_invoice_xml`:
sign normalization for returns, VAT-rate resolution via the Python
`_parse_item_vat_rate(it) or global_vat` (a zero Decimal is falsy),
`line_net = qty*rate - line_disc` clamped at 0, `line_vat = line_net*rate/100`. -/
def computeLine (isReturn : Bool) (globalVat : ℚ) (it : InvoiceItem) : LineData :=
  let qty := if isReturn then |it.qty| else it.qty
  let rate := if isReturn then |it.rate| else it.rate
  let line_disc := if isReturn then |it.discount_amount| else it.discount_amount
  let pv := parseItemVatRate it.item_tax_rate
  let vat_rate := if pv = 0 then globalVat else pv
  let net0 := qty * rate - line_disc
  let line_net := if net0 < 0 then 0 else net0
  { qty := qty
    unit_price := rate
    line_net := line_net
    vat_rate := vat_rate
    line_vat := line_net * vat_rate / 100
    line_disc := line_disc }

/-- The `lines` list accumulated by the item loop. -/
def linesData (doc : SalesInvoice) : List LineData :=
  doc.items.map (computeLine doc.is_return (globalVatRate doc.taxes))

/-- The running `(net_sum, vat_sum)` accumulation of the item loop:
`net_sum += line_net; vat_sum += line_vat`, both starting at `Decimal("0.0")`. -/
def foldTotals (ls : List LineData) : ℚ × ℚ :=
  ls.foldl (fun acc L => (acc.1 + L.line_net, acc.2 + L.line_vat)) (0, 0)

/-- Raw (unrounded) sum of line nets. -/
def netSumRaw (doc : SalesInvoice) : ℚ :=
  ((linesData doc).map LineData.line_net).sum

/-- Raw (unrounded) sum of line VAT amounts. -/
def vatSumRaw (doc : SalesInvoice) : ℚ :=
  ((linesData doc).map LineData.line_vat).sum

/-- `net_after_header_disc = net_sum - header_discount`, clamped at 0. -/
def netAfterDiscount (doc : SalesInvoice) : ℚ :=
  let d := netSumRaw doc - doc.discount_amount
  if d < 0 then 0 else d

/-- One emitted `cac:InvoiceLine` element, reduced to the values the claims
are about.  Monetary values are the post-`_fmt` (3-decimal half-up) rationals;
`invoicedQuantity` is the quantity value passed to `_fmt_qty` (its 1-decimal
float formatting preserves sign and zero). -/
structure LineXml where
  id : Nat
  invoicedQuantity : ℚ
  lineExtensionAmount : ℚ
  taxAmount : ℚ
  roundingAmount : Option ℚ
  taxableAmount : ℚ
  subtotalTaxAmount : ℚ
  priceAmount : ℚ
  allowanceAmount : ℚ
deriving DecidableEq

/-- The emitted invoice document, reduced to the elements the claims are
about.  Party blocks, billing reference, payment means and element ordering
are not modelled (no claim concerns them). -/
structure InvoiceXml where
  id : String
  uuid : String
  invoiceTypeCode : String
  headerAllowanceAmount : ℚ
  headerTaxAmount : ℚ
  taxExclusiveAmount : ℚ
  taxInclusiveAmount : ℚ
  allowanceTotalAmount : ℚ
  payableAmount : ℚ
  invoiceLines : List LineXml
deriving DecidableEq

/-- Emission of one invoice line (`cac:InvoiceLine` body of the line loop):
`RoundingAmount` is emitted iff `single_line`, with value `_fmt(payable)`. -/
def buildLineXml (singleLine : Bool) (payable : ℚ) (idx : Nat) (L : LineData) : LineXml :=
  { id := idx
    invoicedQuantity := L.qty
    lineExtensionAmount := roundHalfUp3 L.line_net
    taxAmount := roundHalfUp3 L.line_vat
    roundingAmount := if singleLine then some (roundHalfUp3 payable) else none
    taxableAmount := roundHalfUp3 L.line_net
    subtotalTaxAmount := roundHalfUp3 L.line_vat
    priceAmount := roundHalfUp3 L.unit_price
    allowanceAmount := roundHalfUp3 L.line_disc }

/-- The `for idx, L in enumerate(lines, start=1)` loop. -/
def buildLinesXml (singleLine : Bool) (payable : ℚ) (idx : Nat) :
    List LineData → List LineXml
  | [] => []
  | L :: rest =>
      buildLineXml singleLine payable idx L ::
        buildLinesXml singleLine payable (idx + 1) rest

/-- Models `build_invoice_xml`.  `freshUuid` is the value `str(uuid.uuid4())`
would produce on this call (the random source made explicit); it is used only
when the invoice carries no stored `jofotara_uuid`.  The second component is
the invoice record after the call: `build_invoice_xml` performs no write to
the Sales Invoice record (its only persistence is a `last_xml` snapshot on the
Settings single), so the record is returned unchanged. -/
def buildInvoiceXml (doc : SalesInvoice) (freshUuid : String) :
    InvoiceXml × SalesInvoice :=
  let ls := linesData doc
  let t := foldTotals ls
  let net_sum := t.1
  let vat_sum := t.2
  let header_discount := doc.discount_amount
  let net0 := net_sum - header_discount
  let net_after := if net0 < 0 then 0 else net0
  let inclusive := net_after + vat_sum
  let payable := inclusive
  let uuidValue := if doc.jofotara_uuid = "" then freshUuid else doc.jofotara_uuid
  ( { id := doc.name
      uuid := uuidValue
      invoiceTypeCode := if doc.is_return then "381" else "388"
      headerAllowanceAmount := roundHalfUp3 header_discount
      headerTaxAmount := roundHalfUp3 vat_sum
      taxExclusiveAmount := roundHalfUp3 net_after
      taxInclusiveAmount := roundHalfUp3 inclusive
      allowanceTotalAmount := roundHalfUp3 header_discount
      payableAmount := roundHalfUp3 payable
      invoiceLines := buildLinesXml (ls.length == 1) payable 1 ls },
    doc )

/-!
### String helpers shared by client.py and invoices.py
-/

/-- ASCII whitespace handled by Python `str.strip()` (the Unicode-space
corner is irrelevant to every claim). -/
def pyWhitespace (c : Char) : Bool :=
  c == ' ' || c == '\t' || c == '\n' || c == '\r' || c == '\x0b' || c == '\x0c'

/-- Python `str.strip()` on a character list: drop leading and trailing
whitespace. -/
def stripChars (s : List Char) : List Char :=
  ((s.dropWhile pyWhitespace).reverse.dropWhile pyWhitespace).reverse

/-- Python `str.strip()`. -/
def pyStrip (s : String) : String := ⟨stripChars s.data⟩

/-!
### Transport client (client.py)
-/

/-- A JSON object response body, modelled as an ordered key/value list of
strings (the fields the reconciliation code reads are all string-valued). -/
abbrev RespData := List (String × String)

/-- Models Python `resp.get(key)` followed by the falsy check: absent keys
and empty values both behave as `""`. -/
def respGet (r : RespData) (k : String) : String :=
  match r.find? (fun p => p.1 == k) with
  | some p => p.2
  | none => ""

/-- Python `a or b` on strings: `b` when `a` is empty. -/
def orElseStr (a b : String) : String := if a = "" then b else a

/-- The JoFotara request header set built by `_build_headers`. -/
structure HeaderSet where
  accept : String
  contentType : String
  acceptLanguage : String
  clientId : String
  secretKey : String
  activityNumber : String
  key : String
deriving DecidableEq

/-- Models `_mask_headers`: of the masked key names (`Secret-Key`,
`Authorization`, `Device-Secret`) only `Secret-Key` occurs in the built
header set; it is replaced by the fixed mask token when non-empty (truthy). -/
def maskHeaders (h : HeaderSet) : HeaderSet :=
  { h with secretKey := if h.secretKey = "" then h.secretKey else "********" }

/-- The JoFotara Settings single, reduced to the fields client.py reads.
String fields hold the raw configured values (`get_password` for the two
secrets is modelled as a plain field read). -/
structure Settings where
  use_oauth2 : Bool
  client_id : String
  secret_key : String
  device_user : String
  device_secret : String
  activity_number : String
  base_url : String
  submit_url : String
deriving DecidableEq

/-- Models `re.sub(r"\D", "", raw)` (ASCII digits; the code keeps any Unicode
digit, a corner no claim depends on). -/
def digitsOnly (s : String) : String := ⟨s.data.filter Char.isDigit⟩

/-- The effective client id after the non-OAuth2 fallback
`if not client_id and device_user: client_id = device_user`. -/
def effectiveClientId (s : Settings) : String :=
  let cid := (pyStrip s.client_id)
  if ¬s.use_oauth2 ∧ cid = "" ∧ (pyStrip s.device_user) ≠ "" then (pyStrip s.device_user) else cid

/-- The effective secret after the non-OAuth2 fallback
`if not client_secret and device_secret: client_secret = device_secret`. -/
def effectiveSecretKey (s : Settings) : String :=
  let cs := (pyStrip s.secret_key)
  if ¬s.use_oauth2 ∧ cs = "" ∧ (pyStrip s.device_secret) ≠ "" then (pyStrip s.device_secret) else cs

/-- Models `_build_headers`: OAuth2 mode requires the direct pair; otherwise
each credential component independently falls back to its device counterpart;
then the (effective) pair must be non-empty and the digits-only activity
number must have length 1..15.  Error strings paraphrase the Arabic
`frappe.throw` messages (their exact text is not claimed). -/
def buildHeaders (s : Settings) : Except String HeaderSet :=
  if s.use_oauth2 ∧ ((pyStrip s.client_id) = "" ∨ (pyStrip s.secret_key) = "") then
    Except.error "client id and secret key required (OAuth2 enabled)"
  else if effectiveClientId s = "" ∨ effectiveSecretKey s = "" then
    Except.error "provide client id/secret or device user/secret"
  else
    let activity := digitsOnly (pyStrip s.activity_number)
    if activity.length < 1 ∨ 15 < activity.length then
      Except.error "activity number must be 1..15 digits"
    else
      Except.ok
        { accept := "application/json"
          contentType := "application/json"
          acceptLanguage := "ar"
          clientId := effectiveClientId s
          secretKey := effectiveSecretKey s
          activityNumber := activity
          key := activity }

/-- drops trailing `/` characters (Python `rstrip("/")`). -/
def rstripSlash (s : String) : String := ⟨(s.data.reverse.dropWhile (· == '/')).reverse⟩

/-- drops leading `/` characters (Python `lstrip("/")`). -/
def lstripSlash (s : String) : String := ⟨s.data.dropWhile (· == '/')⟩

/-- Models `_full_url` for a relative path: `urljoin(base.rstrip("/") + "/",
path.lstrip("/"))` concatenates base and path with a single slash (the
absolute-URL corner of `urljoin` is out of scope for every claim). -/
def fullUrl (base path : String) : String :=
  rstripSlash base ++ "/" ++ lstripSlash path

/-- The HTTP request `post_invoice` is about to issue: URL, headers and the
`{"invoice": b64}` payload. -/
structure Request where
  url : String
  headers : HeaderSet
  payloadInvoice : String
deriving DecidableEq

/-- The authority's HTTP response: status code, JSON body when the body
parses as JSON (`resp.json()`), and the raw text otherwise. -/
structure HttpResp where
  status : Nat
  jsonBody : Option RespData
  text : String

/-- Models `data = resp.json()` with the `{"text": resp.text or ""}`
fallback on parse failure. -/
def parsedBody (r : HttpResp) : RespData :=
  match r.jsonBody with
  | some d => d
  | none => [("text", r.text)]

/-- One log line emitted by `post_invoice`, keeping the fields the claims
are about: which header set was rendered into the log, the HTTP status and
the body included (empty for the pre-call info line). -/
structure LogEntry where
  kind : String
  shownHeaders : HeaderSet
  status : Nat
  body : RespData
deriving DecidableEq

/-- Rendering of a response dict into log/exception text (stands for the
`frappe.as_json` / f-string dict rendering; its exact shape is not claimed,
only that the body is embedded). -/
def renderResp (d : RespData) : String :=
  d.foldl (fun acc p => acc ++ p.1 ++ ": " ++ p.2 ++ "; ") ""

/-- The `frappe.throw(f"JoFotara HTTP {status}: {data}")` message. -/
def httpErrMsg (st : Nat) (d : RespData) : String :=
  "JoFotara HTTP " ++ toString st ++ ": " ++ renderResp d

/-- Models the part of `post_invoice` after `requests.post` returned:
parse the body (raw-text fallback), and on status ≥ 400 write an error log
rendering the masked headers and raise; otherwise return the parsed body.
The pre-call `frappe.logger().info` line (also with masked headers) is the
first log entry in both cases. -/
def handleHttp (req : Request) (r : HttpResp) :
    Except String RespData × List LogEntry :=
  let data := parsedBody r
  let infoEntry : LogEntry :=
    { kind := "info", shownHeaders := maskHeaders req.headers, status := 0, body := [] }
  if 400 ≤ r.status then
    (Except.error (httpErrMsg r.status data),
     [infoEntry,
      { kind := "error", shownHeaders := maskHeaders req.headers,
        status := r.status, body := data }])
  else
    (Except.ok data, [infoEntry])

/-- The request `post_invoice` prepares before any network activity:
headers (with their validation) and the resolved URL.  `requests.post` is
invoked only on the `ok` value; a header-validation error propagates with no
request object ever built. -/
def prepareRequest (s : Settings) (b64xml : String) : Except String Request :=
  match buildHeaders s with
  | Except.error e => Except.error e
  | Except.ok h =>
      let base := pyStrip ((if s.base_url = "" then "https://backend.jofotara.gov.jo" else s.base_url))
      let path := pyStrip ((if s.submit_url = "" then "/core/invoices/" else s.submit_url))
      Except.ok { url := fullUrl base path, headers := h, payloadInvoice := b64xml }

/-- `post_invoice` end to end, with the network modelled as an explicit
oracle `net` from the prepared request to the HTTP response.  A configuration
error aborts with no log lines and without consulting `net` at all. -/
def postInvoiceModel (s : Settings) (b64xml : String) (net : Request → HttpResp) :
    Except String RespData × List LogEntry :=
  match prepareRequest s b64xml with
  | Except.error e => (Except.error e, [])
  | Except.ok req => handleHttp req (net req)

/-- true iff the `Except` is an error (used to state "no request prepared"). -/
def isErrorResult (e : Except String Request) : Bool :=
  match e with
  | Except.error _ => true
  | Except.ok _ => false

/-!
### Reconciliation (invoices.py)
-/

/-- Models the UUID fallback chain of `_apply_response_to_invoice`:
`EINV_INV_UUID or UUID or invoice_uuid or invoiceUUID or id or ""`. -/
def extractUuid (r : RespData) : String :=
  orElseStr (respGet r "EINV_INV_UUID")
    (orElseStr (respGet r "UUID")
      (orElseStr (respGet r "invoice_uuid")
        (orElseStr (respGet r "invoiceUUID")
          (respGet r "id"))))

/-- Models the QR fallback chain: `EINV_QR or qr or qrCode or qr_code or ""`. -/
def extractQr (r : RespData) : String :=
  orElseStr (respGet r "EINV_QR")
    (orElseStr (respGet r "qr")
      (orElseStr (respGet r "qrCode")
        (respGet r "qr_code")))

/-- Models `_apply_response_to_invoice` on the invoice record (the nominal
schema, where the custom `jofotara_*` fields all exist): persist UUID/QR when
non-empty, stamp `jofotara_sent_at` with `now()` (passed explicitly), and set
the status to `Submitted` iff a UUID or QR was obtained, else `Error`. -/
def applyResponseToInvoice (doc : SalesInvoice) (resp : RespData) (nowStr : String) :
    SalesInvoice :=
  let u := extractUuid resp
  let q := extractQr resp
  { doc with
    jofotara_uuid := if u ≠ "" then u else doc.jofotara_uuid
    jofotara_qr := if q ≠ "" then q else doc.jofotara_qr
    jofotara_sent_at := nowStr
    jofotara_status := if u ≠ "" ∨ q ≠ "" then "Submitted" else "Error" }

/-!
### XML minification (`_minify_xml` in invoices.py)
-/

/-- Models the three `replace` calls deleting `\r`, `\n`, `\t`. -/
def removeCRLFTab (s : List Char) : List Char :=
  s.filter fun c => !(c == '\r' || c == '\n' || c == '\t')

/-- One `s.replace("  ", " ")` pass: left-to-right, non-overlapping. -/
def collapsePass : List Char → List Char
  | [] => []
  | [c] => [c]
  | c1 :: c2 :: rest =>
      if c1 = ' ' ∧ c2 = ' ' then ' ' :: collapsePass rest
      else c1 :: collapsePass (c2 :: rest)

/-- Python `"  " in s`. -/
def hasDoubleSpace : List Char → Bool
  | c1 :: c2 :: rest => (c1 == ' ' && c2 == ' ') || hasDoubleSpace (c2 :: rest)
  | _ => false

/-- The `while "  " in s: s = s.replace("  ", " ")` loop, run with explicit
fuel.  Each firing iteration strictly shrinks the string
(`collapsePass_length_lt`), so `s.length` iterations always reach the
loop's exit condition (`hasDoubleSpace_collapseFuel` below): with that fuel
this equals the Python loop. -/
def collapseFuel : Nat → List Char → List Char
  | 0, s => s
  | n + 1, s => if hasDoubleSpace s then collapseFuel n (collapsePass s) else s

/-- The space-collapsing loop of `_minify_xml`. -/
def collapseSpaces (s : List Char) : List Char := collapseFuel s.length s

/-- One `s.replace("> <", "><")` pass: left-to-right, non-overlapping. -/
def gtltPass : List Char → List Char
  | '>' :: ' ' :: '<' :: rest => '>' :: '<' :: gtltPass rest
  | c :: rest => c :: gtltPass rest
  | [] => []

/-- Models `_minify_xml` on the character list. -/
def minifyChars (s : List Char) : List Char :=
  if s = [] then s
  else gtltPass (collapseSpaces (stripChars (removeCRLFTab s)))

/-- Models `_minify_xml`. -/
def minifyXml (s : String) : String := ⟨minifyChars s.data⟩

/-!
### Concrete instances used by counterexamples and witnesses
-/

/-- Item with net 0.003125 JOD: its 16% VAT is 0.0005, exactly a rounding tie. -/
def cItem1 : InvoiceItem := { qty := 1, rate := 1/320, discount_amount := 0, item_tax_rate := [] }

/-- Two-line invoice whose per-line VAT amounts are each 0.0005. -/
def c1doc : SalesInvoice :=
  { name := "INV-1", is_return := false, discount_amount := 0,
    items := [cItem1, cItem1], taxes := [⟨16⟩],
    jofotara_uuid := "", jofotara_qr := "", jofotara_status := "", jofotara_sent_at := "" }

/-- Item with net 0.0005 JOD and a 100% per-item VAT rate (VAT also 0.0005). -/
def cItem2 : InvoiceItem :=
  { qty := 1, rate := 1/2000, discount_amount := 0, item_tax_rate := [("VAT", 100)] }

/-- Single-line invoice where both rounding inputs are exactly 0.0005. -/
def c2doc : SalesInvoice :=
  { name := "INV-2", is_return := false, discount_amount := 0,
    items := [cItem2], taxes := [],
    jofotara_uuid := "", jofotara_qr := "", jofotara_status := "", jofotara_sent_at := "" }

/-- Well-configured settings (direct credentials, valid activity number). -/
def cS3 : Settings :=
  { use_oauth2 := false, client_id := "id", secret_key := "sec",
    device_user := "", device_secret := "", activity_number := "123",
    base_url := "", submit_url := "" }

/-- The request `post_invoice` prepares from `cS3` with payload "p". -/
def cReq3 : Request :=
  { url := "https://backend.jofotara.gov.jo/core/invoices/",
    headers := { accept := "application/json", contentType := "application/json",
                 acceptLanguage := "ar", clientId := "id", secretKey := "sec",
                 activityNumber := "123", key := "123" },
    payloadInvoice := "p" }

/-- Network oracle answering HTTP 400 with a JSON error body. -/
def cNet400 : Request → HttpResp :=
  fun _ => { status := 400, jsonBody := some [("err", "x")], text := "" }

/-- A pending invoice with no authority identifiers. -/
def c4doc : SalesInvoice :=
  { name := "INV-4", is_return := false, discount_amount := 0,
    items := [], taxes := [],
    jofotara_uuid := "", jofotara_qr := "", jofotara_status := "Pending",
    jofotara_sent_at := "" }

/-- Authority response carrying both identifiers. -/
def c4resp : RespData := [("EINV_INV_UUID", "X"), ("EINV_QR", "Y")]

/-- Non-empty authority response with no recognized identifier field. -/
def c4respUnrec : RespData := [("status", "OK"), ("message", "accepted")]

/-- Return line item with negative quantity, price and discount. -/
def cRetItem : InvoiceItem := { qty := -2, rate := -5, discount_amount := -1, item_tax_rate := [] }

/-- A credit note (`is_return = true`) holding `cRetItem`. -/
def cRetDoc : SalesInvoice :=
  { name := "RET-1", is_return := true, discount_amount := 0,
    items := [cRetItem], taxes := [],
    jofotara_uuid := "", jofotara_qr := "", jofotara_status := "", jofotara_sent_at := "" }

/-- Placeholder line used only as the `headD` default below. -/
def defaultLineXml : LineXml :=
  { id := 0, invoicedQuantity := 0, lineExtensionAmount := 0, taxAmount := 0,
    roundingAmount := none, taxableAmount := 0, subtotalTaxAmount := 0,
    priceAmount := 0, allowanceAmount := 0 }

/-- The first emitted line of the credit note `cRetDoc`. -/
def cRetLine : LineXml :=
  ((buildInvoiceXml cRetDoc "u").1.invoiceLines).headD defaultLineXml

/-- Item with no per-item VAT rate. -/
def cItem8 : InvoiceItem := { qty := 1, rate := 10, discount_amount := 0, item_tax_rate := [] }

/-- Tax rows whose first non-zero rate is 5. -/
def cT8a : List TaxRow := [⟨0⟩, ⟨5⟩]

/-- Tax rows with no non-zero rate. -/
def cT8b : List TaxRow := [⟨0⟩]

/-- Settings with no usable direct pair (client id empty) and no usable
device pair (device secret empty), yet one component of each present. -/
def cS9x : Settings :=
  { use_oauth2 := false, client_id := "", secret_key := "X",
    device_user := "U", device_secret := "", activity_number := "123",
    base_url := "", submit_url := "" }

/-- Settings with every credential field empty. -/
def cS9e : Settings :=
  { use_oauth2 := false, client_id := "", secret_key := "",
    device_user := "", device_secret := "", activity_number := "",
    base_url := "", submit_url := "" }

/-- Network oracle answering HTTP 200 with an empty JSON object. -/
def cNet200 : Request → HttpResp :=
  fun _ => { status := 200, jsonBody := some [], text := "" }

/-- Network oracle answering HTTP 500 with a non-JSON body. -/
def cNet500 : Request → HttpResp :=
  fun _ => { status := 500, jsonBody := none, text := "boom" }

/-- Invoice with no previously stored authority UUID. -/
def c10doc : SalesInvoice :=
  { name := "INV-10", is_return := false, discount_amount := 0,
    items := [], taxes := [],
    jofotara_uuid := "", jofotara_qr := "", jofotara_status := "", jofotara_sent_at := "" }

/-- Authority response carrying a UUID under the `UUID` field name. -/
def c10resp : RespData := [("UUID", "x")]

/-!
### Helper lemmas
-/

/-- Evaluation rule for `roundHalfUp3` on a non-negative input from integer
bounds on `x * 1000 + 1/2`. -/
lemma roundHalfUp3_of_bounds (x : ℚ) (n : ℤ) (h0 : 0 ≤ x)
    (h1 : (n : ℚ) ≤ x * 1000 + 1/2) (h2 : x * 1000 + 1/2 < n + 1) :
    roundHalfUp3 x = (n : ℚ) / 1000 := by
  unfold roundHalfUp3
  rw [if_pos h0, Int.floor_eq_iff.mpr ⟨h1, h2⟩]

/-- Half-up rounding of a non-negative value is non-negative. -/
lemma roundHalfUp3_nonneg {x : ℚ} (h : 0 ≤ x) : 0 ≤ roundHalfUp3 x := by
  unfold roundHalfUp3
  rw [if_pos h]
  apply div_nonneg _ (by norm_num)
  exact_mod_cast Int.floor_nonneg.mpr (by linarith)

/-- The loop accumulator, for an arbitrary start value. -/
lemma foldTotalsAux (ls : List LineData) :
    ∀ a : ℚ × ℚ, ls.foldl (fun acc L => (acc.1 + L.line_net, acc.2 + L.line_vat)) a
      = (a.1 + (ls.map LineData.line_net).sum, a.2 + (ls.map LineData.line_vat).sum) := by
  induction ls with
  | nil => intro a; simp
  | cons L rest ih => intro a; simp [List.foldl_cons, ih, add_assoc]

/-- The accumulated `(net_sum, vat_sum)` are the sums over the line list. -/
lemma foldTotals_eq (ls : List LineData) :
    foldTotals ls = ((ls.map LineData.line_net).sum, (ls.map LineData.line_vat).sum) := by
  simpa [foldTotals] using foldTotalsAux ls (0, 0)

/-- Every emitted line of the line loop comes from some member of the
`lines` list. -/
lemma buildLinesXml_mem {sl : Bool} {pay : ℚ} {lx : LineXml} :
    ∀ {idx : Nat} {ls : List LineData}, lx ∈ buildLinesXml sl pay idx ls →
      ∃ i L, L ∈ ls ∧ lx = buildLineXml sl pay i L := by
  intro idx ls
  induction ls generalizing idx with
  | nil => simp [buildLinesXml]
  | cons L rest ih =>
      intro h
      rcases List.mem_cons.mp h with h1 | h1
      · exact ⟨idx, L, by simp, h1⟩
      · obtain ⟨i, L2, hm, he⟩ := ih h1
        exact ⟨i, L2, by simp [hm], he⟩

/-- The line loop emits one element per line. -/
lemma buildLinesXml_length (sl : Bool) (pay : ℚ) :
    ∀ (idx : Nat) (ls : List LineData), (buildLinesXml sl pay idx ls).length = ls.length := by
  intro idx ls
  induction ls generalizing idx with
  | nil => simp [buildLinesXml]
  | cons L rest ih => simp [buildLinesXml, ih]

/-- Every emitted line carries the same `RoundingAmount` content, fixed by
the `single_line` flag. -/
lemma buildLinesXml_map_rounding (sl : Bool) (pay : ℚ) :
    ∀ (idx : Nat) (ls : List LineData),
      (buildLinesXml sl pay idx ls).map LineXml.roundingAmount
        = List.replicate ls.length (if sl then some (roundHalfUp3 pay) else none) := by
  intro idx ls
  induction ls generalizing idx with
  | nil => simp [buildLinesXml]
  | cons L rest ih => simp [buildLinesXml, buildLineXml, ih, List.replicate]

/-- `_global_vat_rate` returns the first non-zero tax-row rate. -/
lemma globalVatRate_first (pre : List TaxRow) (t : TaxRow) (post : List TaxRow)
    (hpre : ∀ p ∈ pre, p.rate = 0) (ht : t.rate ≠ 0) :
    globalVatRate (pre ++ t :: post) = t.rate := by
  induction pre with
  | nil => simp [globalVatRate, abs_pos.mpr ht]
  | cons p rest ih =>
      have hp : p.rate = 0 := hpre p (by simp)
      simp only [List.cons_append, globalVatRate, hp, abs_zero, lt_irrefl, if_false]
      exact ih (fun q hq => hpre q (by simp [hq]))

/-- `_global_vat_rate` falls back to 16 when every tax-row rate is zero. -/
lemma globalVatRate_allzero : ∀ (l : List TaxRow), (∀ p ∈ l, p.rate = 0) → globalVatRate l = 16 := by
  intro l
  induction l with
  | nil => intro _; rfl
  | cons p rest ih =>
      intro h
      have hp : p.rate = 0 := h p (by simp)
      simp only [globalVatRate, hp, abs_zero, lt_irrefl, if_false]
      exact ih (fun q hq => h q (by simp [hq]))

/-- Characters of a collapse pass come from the input, up to spaces. -/
lemma collapsePass_subset {c : Char} : ∀ {s : List Char}, c ∈ collapsePass s → c = ' ' ∨ c ∈ s := by
  intro s
  induction s using collapsePass.induct with
  | case1 => simp [collapsePass]
  | case2 d => simp [collapsePass]; tauto
  | case3 c1 c2 rest h ih =>
      simp only [collapsePass, if_pos h]
      intro hm
      rcases List.mem_cons.mp hm with h1 | h1
      · exact Or.inl h1
      · rcases ih h1 with h2 | h2
        · exact Or.inl h2
        · right; simp [h2]
  | case4 c1 c2 rest h ih =>
      simp only [collapsePass, if_neg h]
      intro hm
      rcases List.mem_cons.mp hm with h1 | h1
      · right; simp [h1]
      · rcases ih h1 with h2 | h2
        · exact Or.inl h2
        · right; simp only [List.mem_cons] at h2 ⊢; tauto

/-- A collapse pass never lengthens the string. -/
lemma collapsePass_length_le : ∀ (s : List Char), (collapsePass s).length ≤ s.length := by
  intro s
  induction s using collapsePass.induct with
  | case1 => simp [collapsePass]
  | case2 d => simp [collapsePass]
  | case3 c1 c2 rest h ih =>
      simp only [collapsePass, if_pos h, List.length_cons]
      simp only [List.length_cons] at ih
      omega
  | case4 c1 c2 rest h ih =>
      simp only [collapsePass, if_neg h, List.length_cons]
      simp only [List.length_cons] at ih
      omega

/-- A collapse pass strictly shrinks a string containing a double space:
the justification that `s.length` fuel reaches the Python loop's exit. -/
lemma collapsePass_length_lt :
    ∀ (s : List Char), hasDoubleSpace s = true → (collapsePass s).length < s.length := by
  intro s
  induction s using collapsePass.induct with
  | case1 => simp [hasDoubleSpace]
  | case2 d => simp [hasDoubleSpace]
  | case3 c1 c2 rest h ih =>
      intro _
      have hle := collapsePass_length_le rest
      simp only [collapsePass, if_pos h, List.length_cons]
      omega
  | case4 c1 c2 rest h ih =>
      intro hd
      simp only [hasDoubleSpace, Bool.or_eq_true, Bool.and_eq_true, beq_iff_eq] at hd
      rcases hd with h1 | h1
      · exact absurd h1 h
      · have := ih h1
        simp only [collapsePass, if_neg h, List.length_cons]
        simp only [List.length_cons] at this
        omega

/-- With fuel at least the string length, the fuelled loop reaches the
fixpoint the Python `while` loop exits on: no double space remains.  This
validates modelling the unbounded loop with `s.length` fuel. -/
lemma hasDoubleSpace_collapseFuel :
    ∀ (n : Nat) (s : List Char), s.length ≤ n → hasDoubleSpace (collapseFuel n s) = false := by
  intro n
  induction n with
  | zero =>
      intro s hs
      have : s = [] := List.length_eq_zero.mp (Nat.le_zero.mp hs)
      subst this
      simp [collapseFuel, hasDoubleSpace]
  | succ n ih =>
      intro s hs
      by_cases hd : hasDoubleSpace s = true
      · have hlt := collapsePass_length_lt s hd
        simp only [collapseFuel, hd, if_true]
        exact ih _ (by omega)
      · simp only [collapseFuel, hd, if_false]
        simpa using hd

/-- Non-space characters of the fuelled loop's output come from its input. -/
lemma collapseFuel_subset {c : Char} (hc : c ≠ ' ') :
    ∀ (n : Nat) (s : List Char), c ∈ collapseFuel n s → c ∈ s := by
  intro n
  induction n with
  | zero => intro s; simp [collapseFuel]
  | succ n ih =>
      intro s hm
      simp only [collapseFuel] at hm
      by_cases hd : hasDoubleSpace s = true
      · rw [if_pos hd] at hm
        rcases collapsePass_subset (ih _ hm) with h1 | h1
        · exact absurd h1 hc
        · exact h1
      · rwa [if_neg hd] at hm

/-- Characters of the `"> <"` pass come from the input, up to `>` and `<`. -/
lemma gtltPass_subset {c : Char} :
    ∀ {s : List Char}, c ∈ gtltPass s → c = '>' ∨ c = '<' ∨ c ∈ s := by
  intro s
  induction s using gtltPass.induct with
  | case1 rest ih =>
      simp only [gtltPass, List.mem_cons]
      rintro (h1 | h1 | h1)
      · exact Or.inl h1
      · exact Or.inr (Or.inl h1)
      · rcases ih h1 with h2 | h2 | h2
        · exact Or.inl h2
        · exact Or.inr (Or.inl h2)
        · right; right; simp [h2]
  | case2 d rest h ih =>
      simp only [gtltPass, List.mem_cons]
      rintro (h1 | h1)
      · right; right; exact Or.inl h1
      · rcases ih h1 with h2 | h2 | h2
        · exact Or.inl h2
        · exact Or.inr (Or.inl h2)
        · right; right; exact Or.inr h2
  | case3 => simp [gtltPass]

/-- Stripping only removes characters. -/
lemma stripChars_subset {c : Char} {s : List Char} (h : c ∈ stripChars s) : c ∈ s := by
  unfold stripChars at h
  rw [List.mem_reverse] at h
  have h2 := (List.dropWhile_sublist _).subset h
  rw [List.mem_reverse] at h2
  exact (List.dropWhile_sublist _).subset h2

/-- No carriage return, line feed or tab survives minification. -/
lemma minifyChars_no_ctrl {c : Char} (hc : c = '\r' ∨ c = '\n' ∨ c = '\t') (s : List Char) :
    c ∉ minifyChars s := by
  intro hm
  unfold minifyChars at hm
  by_cases he : s = []
  · rw [if_pos he, he] at hm; simp at hm
  · rw [if_neg he] at hm
    have hsp : c ≠ ' ' := by rcases hc with h | h | h <;> simp [h]
    have h1 : c ∈ collapseSpaces (stripChars (removeCRLFTab s)) := by
      rcases gtltPass_subset hm with h | h | h
      · exact absurd h (by rcases hc with h2 | h2 | h2 <;> simp [h2])
      · exact absurd h (by rcases hc with h2 | h2 | h2 <;> simp [h2])
      · exact h
    have h2 : c ∈ stripChars (removeCRLFTab s) := collapseFuel_subset hsp _ _ h1
    have h3 : c ∈ removeCRLFTab s := stripChars_subset h2
    rw [removeCRLFTab, List.mem_filter] at h3
    rcases h3 with ⟨_, hp⟩
    rcases hc with h | h | h <;> simp [h] at hp

/-!
### Claims
-/

/-- C1 (counterexample): on the two-line invoice `c1doc`, whose line VAT
amounts are each 0.0005, the emitted header `TaxAmount` (0.001, the raw sum
rounded once) differs from the sum of the per-line rounded VAT amounts
(0.001 + 0.001 = 0.002), refuting the claim that rounding is applied per
line and then summed. -/
theorem c1_header_tax_per_line_rounding_cx :
    (buildInvoiceXml c1doc "u").1.headerTaxAmount
      ≠ ((linesData c1doc).map (fun L => roundHalfUp3 L.line_vat)).sum := by
  have e1 : roundHalfUp3 (1/1000) = 1/1000 := by
    rw [roundHalfUp3_of_bounds (1/1000) 1 (by norm_num) (by norm_num) (by norm_num)]; norm_num
  have e2 : roundHalfUp3 (1/2000) = 1/1000 := by
    rw [roundHalfUp3_of_bounds (1/2000) 1 (by norm_num) (by norm_num) (by norm_num)]; norm_num
  simp only [buildInvoiceXml, linesData, computeLine, foldTotals, globalVatRate,
    parseItemVatRate, c1doc, cItem1, List.map, List.foldl, List.sum]
  norm_num [e1, e2]

/-- C1 (amended): for every invoice, the emitted header `TaxAmount` equals
the 3-decimal half-up rounding of the raw (unrounded) sum of the line VAT
amounts — the rounding is applied once to the total, not per line. -/
theorem c1_header_tax_rounds_raw_sum (doc : SalesInvoice) (u : String) :
    (buildInvoiceXml doc u).1.headerTaxAmount = roundHalfUp3 (vatSumRaw doc) := by
  simp [buildInvoiceXml, vatSumRaw, foldTotals_eq]

/-- C2 (counterexample): on the one-line invoice `c2doc`, where the
tax-exclusive input and the VAT input are each exactly 0.0005, the emitted
`TaxInclusiveAmount` (0.001) differs from the emitted `TaxExclusiveAmount`
plus the emitted `TaxAmount` (0.001 + 0.001 = 0.002), refuting the claimed
exact identity among the three independently rounded values. -/
theorem c2_rounded_identity_cx :
    (buildInvoiceXml c2doc "u").1.taxInclusiveAmount
      ≠ (buildInvoiceXml c2doc "u").1.taxExclusiveAmount
        + (buildInvoiceXml c2doc "u").1.headerTaxAmount := by
  have e1 : roundHalfUp3 (1/1000) = 1/1000 := by
    rw [roundHalfUp3_of_bounds (1/1000) 1 (by norm_num) (by norm_num) (by norm_num)]; norm_num
  have e2 : roundHalfUp3 (1/2000) = 1/1000 := by
    rw [roundHalfUp3_of_bounds (1/2000) 1 (by norm_num) (by norm_num) (by norm_num)]; norm_num
  simp only [buildInvoiceXml, linesData, computeLine, foldTotals, globalVatRate,
    parseItemVatRate, c2doc, cItem2, List.map, List.foldl]
  norm_num [e1, e2]

/-- C2 (amended): the identity holds on the inputs before rounding: the
emitted `TaxInclusiveAmount` is the 3-decimal half-up rounding of the exact
sum `net_after_header_discount + vat_sum`, while `TaxExclusiveAmount` and
the header `TaxAmount` are the roundings of those two addends — each of the
three emitted values rounds its own computed input, but the identity among
the three rounded values can fail (see the counterexample). -/
theorem c2_amounts_round_own_inputs (doc : SalesInvoice) (u : String) :
    (buildInvoiceXml doc u).1.taxInclusiveAmount
      = roundHalfUp3 (netAfterDiscount doc + vatSumRaw doc)
    ∧ (buildInvoiceXml doc u).1.taxExclusiveAmount = roundHalfUp3 (netAfterDiscount doc)
    ∧ (buildInvoiceXml doc u).1.headerTaxAmount = roundHalfUp3 (vatSumRaw doc) := by
  refine ⟨?_, ?_, ?_⟩ <;>
    simp [buildInvoiceXml, netAfterDiscount, netSumRaw, vatSumRaw, foldTotals_eq]

/-- C3 (counterexample): with valid settings and a network answering
HTTP 400 with body `{"err": "x"}`, `post_invoice` raises (its result is the
error carrying the rendered body), and does not return the parsed body to
the caller — refuting the claim that the body is still returned. -/
theorem c3_error_body_not_returned_cx :
    (postInvoiceModel cS3 "p" cNet400).1 = Except.error (httpErrMsg 400 [("err", "x")])
    ∧ (postInvoiceModel cS3 "p" cNet400).1 ≠ Except.ok [("err", "x")] := by
  refine ⟨rfl, ?_⟩
  rw [show (postInvoiceModel cS3 "p" cNet400).1
      = Except.error (httpErrMsg 400 [("err", "x")]) from rfl]
  simp

/-- C3 (amended): for every submission whose HTTP response has status ≥ 400,
the client logs the failure rendering only masked headers (the secret is
replaced by the mask token), and raises an exception whose message embeds
the status and the parsed (or raw-text-wrapped) body — the body reaches the
caller only through that exception, not as a returned value. -/
theorem c3_http_error_raises_and_masks (s : Settings) (b64 : String)
    (net : Request → HttpResp) (req : Request)
    (hok : prepareRequest s b64 = Except.ok req)
    (hst : 400 ≤ (net req).status) :
    (postInvoiceModel s b64 net).1
      = Except.error (httpErrMsg (net req).status (parsedBody (net req)))
    ∧ (postInvoiceModel s b64 net).2.map LogEntry.shownHeaders
      = [maskHeaders req.headers, maskHeaders req.headers]
    ∧ (req.headers.secretKey ≠ "" → (maskHeaders req.headers).secretKey = "********") := by
  have hpost : postInvoiceModel s b64 net = handleHttp req (net req) := by
    simp [postInvoiceModel, hok]
  rw [hpost]
  unfold handleHttp
  rw [if_pos hst]
  refine ⟨rfl, rfl, ?_⟩
  intro hne
  simp [maskHeaders, hne]

/-- C3 (witness): the amended theorem applied to `cS3` and an HTTP 400
response. -/
theorem c3_http_error_raises_and_masks_witness :
    prepareRequest cS3 "p" = Except.ok cReq3
    ∧ 400 ≤ (cNet400 cReq3).status
    ∧ (postInvoiceModel cS3 "p" cNet400).1
        = Except.error (httpErrMsg (cNet400 cReq3).status (parsedBody (cNet400 cReq3)))
    ∧ (postInvoiceModel cS3 "p" cNet400).2.map LogEntry.shownHeaders
        = [maskHeaders cReq3.headers, maskHeaders cReq3.headers]
    ∧ (maskHeaders cReq3.headers).secretKey = "********" := by
  have hok : prepareRequest cS3 "p" = Except.ok cReq3 := rfl
  have H := c3_http_error_raises_and_masks cS3 "p" cNet400 cReq3 hok (by decide)
  exact ⟨hok, by decide, H.1, H.2.1, H.2.2 (by decide)⟩

/-- C4: after applying any authority response to an invoice, the status is
`Submitted` iff the ordered fallback extraction yields a non-empty UUID or a
non-empty QR payload, and `Error` iff it yields neither — including a
response with no recognized identifier field at all (the HTTP-200 empty or
unrecognized envelope). -/
theorem c4_status_submitted_iff_identifier (doc : SalesInvoice) (resp : RespData)
    (nowS : String) :
    ((applyResponseToInvoice doc resp nowS).jofotara_status = "Submitted"
      ↔ (extractUuid resp ≠ "" ∨ extractQr resp ≠ ""))
    ∧ ((applyResponseToInvoice doc resp nowS).jofotara_status = "Error"
      ↔ ¬(extractUuid resp ≠ "" ∨ extractQr resp ≠ "")) := by
  by_cases h : extractUuid resp ≠ "" ∨ extractQr resp ≠ ""
  · constructor <;> simp [applyResponseToInvoice, h]
  · constructor <;> simp [applyResponseToInvoice, h]

/-- C4 (witness): the empty envelope and a non-empty envelope with no
recognized field both yield `Error`; a response carrying the identifiers
yields `Submitted`. -/
theorem c4_status_submitted_iff_identifier_witness :
    (applyResponseToInvoice c4doc ([] : RespData) "t").jofotara_status = "Error"
    ∧ (applyResponseToInvoice c4doc c4respUnrec "t").jofotara_status = "Error"
    ∧ (applyResponseToInvoice c4doc c4resp "t").jofotara_status = "Submitted" := by
  refine ⟨(c4_status_submitted_iff_identifier c4doc [] "t").2.mpr (by decide),
    (c4_status_submitted_iff_identifier c4doc c4respUnrec "t").2.mpr (by decide),
    (c4_status_submitted_iff_identifier c4doc c4resp "t").1.mpr (Or.inl (by decide))⟩

/-- C5 (counterexample): minifying `<a>x\ny</a>` yields `<a>xy</a>` — the
newline inside the element's text is deleted, so the textual content is not
preserved unchanged, refuting the claim. -/
theorem c5_minify_text_altered_cx :
    minifyXml "<a>x\ny</a>" = "<a>xy</a>"
    ∧ minifyXml "<a>x\ny</a>" ≠ "<a>x\ny</a>" := by
  refine ⟨by decide, by decide⟩

/-- C5 (amended): minification collapses whitespace globally — carriage
returns, line feeds and tabs are deleted everywhere, including inside the
textual content of elements, so the result is always a single line but text
containing such whitespace is altered rather than preserved. -/
theorem c5_minify_single_line (s : String) :
    '\n' ∉ (minifyXml s).data ∧ '\r' ∉ (minifyXml s).data ∧ '\t' ∉ (minifyXml s).data :=
  ⟨minifyChars_no_ctrl (Or.inr (Or.inl rfl)) s.data,
   minifyChars_no_ctrl (Or.inl rfl) s.data,
   minifyChars_no_ctrl (Or.inr (Or.inr rfl)) s.data⟩

/-- C6: for every invoice with `is_return = true`, every emitted
`InvoicedQuantity`, `PriceAmount` and line-level allowance `Amount` is
non-negative, whatever the signs of the source fields. -/
theorem c6_return_lines_nonneg (doc : SalesInvoice) (u : String)
    (h : doc.is_return = true) :
    ∀ lx ∈ (buildInvoiceXml doc u).1.invoiceLines,
      0 ≤ lx.invoicedQuantity ∧ 0 ≤ lx.priceAmount ∧ 0 ≤ lx.allowanceAmount := by
  intro lx hmem
  simp only [buildInvoiceXml] at hmem
  obtain ⟨i, L, hL, rfl⟩ := buildLinesXml_mem hmem
  simp only [linesData, List.mem_map] at hL
  obtain ⟨it, hit, rfl⟩ := hL
  simp only [buildLineXml, computeLine, h, if_true]
  exact ⟨abs_nonneg _, roundHalfUp3_nonneg (abs_nonneg _), roundHalfUp3_nonneg (abs_nonneg _)⟩

/-- C6 (witness): the theorem applied to the credit note `cRetDoc`, all of
whose source fields are negative, at its first emitted line. -/
theorem c6_return_lines_nonneg_witness :
    cRetDoc.is_return = true
    ∧ (0 ≤ cRetLine.invoicedQuantity ∧ 0 ≤ cRetLine.priceAmount
        ∧ 0 ≤ cRetLine.allowanceAmount) := by
  have hne : (buildInvoiceXml cRetDoc "u").1.invoiceLines ≠ [] := by
    simp only [buildInvoiceXml, linesData, cRetDoc, List.map, buildLinesXml]
    exact List.cons_ne_nil _ _
  have hmem : cRetLine ∈ (buildInvoiceXml cRetDoc "u").1.invoiceLines := by
    unfold cRetLine
    cases hl : (buildInvoiceXml cRetDoc "u").1.invoiceLines with
    | nil => exact absurd hl hne
    | cons a t => simp [hl]
  exact ⟨rfl, c6_return_lines_nonneg cRetDoc "u" rfl cRetLine hmem⟩

/-- C7: with exactly one line item every emitted line carries a
`RoundingAmount` equal to the emitted `PayableAmount`; with two or more line
items no emitted line carries one. -/
theorem c7_rounding_amount_single_line_only (doc : SalesInvoice) (u : String) :
    (doc.items.length = 1 →
      ((buildInvoiceXml doc u).1.invoiceLines).map LineXml.roundingAmount
        = List.replicate ((buildInvoiceXml doc u).1.invoiceLines).length
            (some ((buildInvoiceXml doc u).1.payableAmount)))
    ∧ (2 ≤ doc.items.length →
      ((buildInvoiceXml doc u).1.invoiceLines).map LineXml.roundingAmount
        = List.replicate ((buildInvoiceXml doc u).1.invoiceLines).length none) := by
  have hlen : (linesData doc).length = doc.items.length := by simp [linesData]
  constructor
  · intro h1
    have hb : ((linesData doc).length == 1) = true := by simp [hlen, h1]
    simp only [buildInvoiceXml, hb, buildLinesXml_map_rounding, buildLinesXml_length, if_true]
  · intro h2
    have hb : ((linesData doc).length == 1) = false := by
      simp only [beq_eq_false_iff_ne, ne_eq, hlen]
      omega
    simp only [buildInvoiceXml, hb, buildLinesXml_map_rounding, buildLinesXml_length]
    simp

/-- C7 (witness): the theorem applied to the one-line invoice `c2doc` and
the two-line invoice `c1doc`. -/
theorem c7_rounding_amount_single_line_only_witness :
    c2doc.items.length = 1
    ∧ ((buildInvoiceXml c2doc "u").1.invoiceLines).map LineXml.roundingAmount
        = List.replicate ((buildInvoiceXml c2doc "u").1.invoiceLines).length
            (some ((buildInvoiceXml c2doc "u").1.payableAmount))
    ∧ 2 ≤ c1doc.items.length
    ∧ ((buildInvoiceXml c1doc "u").1.invoiceLines).map LineXml.roundingAmount
        = List.replicate ((buildInvoiceXml c1doc "u").1.invoiceLines).length none :=
  ⟨rfl, (c7_rounding_amount_single_line_only c2doc "u").1 rfl, by decide,
   (c7_rounding_amount_single_line_only c1doc "u").2 (by decide)⟩

/-- C8: when the per-item tax-rate map yields no non-zero rate, the VAT rate
applied to the line is the document's first non-zero tax-row rate, and if no
tax row has a non-zero rate it is exactly 16.0 percent. -/
theorem c8_vat_rate_fallback_chain (taxes : List TaxRow) (isReturn : Bool)
    (it : InvoiceItem) (h : parseItemVatRate it.item_tax_rate = 0) :
    (∀ pre t post, taxes = pre ++ t :: post → (∀ p ∈ pre, p.rate = 0) → t.rate ≠ 0 →
        (computeLine isReturn (globalVatRate taxes) it).vat_rate = t.rate)
    ∧ ((∀ t ∈ taxes, t.rate = 0) →
        (computeLine isReturn (globalVatRate taxes) it).vat_rate = 16) := by
  have hv : (computeLine isReturn (globalVatRate taxes) it).vat_rate = globalVatRate taxes := by
    simp [computeLine, h]
  constructor
  · rintro pre t post rfl hpre ht
    rw [hv]
    exact globalVatRate_first pre t post hpre ht
  · intro hz
    rw [hv]
    exact globalVatRate_allzero taxes hz

/-- C8 (witness): the theorem applied to an item with an empty tax-rate map,
once with tax rows `[0, 5]` (rate 5 applies) and once with `[0]` (16
applies). -/
theorem c8_vat_rate_fallback_chain_witness :
    parseItemVatRate cItem8.item_tax_rate = 0
    ∧ (computeLine false (globalVatRate cT8a) cItem8).vat_rate = 5
    ∧ (computeLine false (globalVatRate cT8b) cItem8).vat_rate = 16 := by
  refine ⟨rfl, ?_, ?_⟩
  · exact (c8_vat_rate_fallback_chain cT8a false cItem8 rfl).1 [⟨0⟩] ⟨5⟩ [] rfl
      (by intro p hp; simp at hp; rw [hp]) (by norm_num)
  · exact (c8_vat_rate_fallback_chain cT8b false cItem8 rfl).2
      (by intro p hp; simp [cT8b] at hp; rw [hp])

/-- C9 (counterexample): with `client_id` empty, `secret_key` "X",
`device_user` "U" and `device_secret` empty there is no usable direct
client-id/secret pair and no usable device pair, yet `post_invoice` prepares
a request (no configuration error is raised and the network call would
proceed), because each credential component falls back independently —
refuting the claim as stated. -/
theorem c9_cross_component_fallback_cx :
    (¬(pyStrip cS9x.client_id ≠ "" ∧ pyStrip cS9x.secret_key ≠ ""))
    ∧ (¬(pyStrip cS9x.device_user ≠ "" ∧ pyStrip cS9x.device_secret ≠ ""))
    ∧ isErrorResult (prepareRequest cS9x "p") = false := by
  refine ⟨by decide, by decide, by decide⟩

/-- C9 (amended): if after the per-component fallback (client-id falls back
to device-user, secret to device-secret, each independently; no fallback in
OAuth2 mode) the effective client-id or effective secret is empty, or the
digits-only activity number has length outside 1–15, then `post_invoice`
raises a configuration error before preparing any request, and its outcome
is independent of the network — no call is attempted. -/
theorem c9_config_error_blocks_network (s : Settings) (b64 : String)
    (h : effectiveClientId s = "" ∨ effectiveSecretKey s = ""
      ∨ (digitsOnly (pyStrip s.activity_number)).length < 1
      ∨ 15 < (digitsOnly (pyStrip s.activity_number)).length) :
    isErrorResult (prepareRequest s b64) = true
    ∧ ∀ net1 net2, postInvoiceModel s b64 net1 = postInvoiceModel s b64 net2 := by
  have herr : ∃ e, buildHeaders s = Except.error e := by
    simp only [buildHeaders]
    split_ifs with h1 h2 h3
    · exact ⟨_, rfl⟩
    · exact ⟨_, rfl⟩
    · exact ⟨_, rfl⟩
    · exfalso
      rcases h with hc | hs2 | ha | ha
      · exact h2 (Or.inl hc)
      · exact h2 (Or.inr hs2)
      · exact h3 (Or.inl ha)
      · exact h3 (Or.inr ha)
  obtain ⟨e, he⟩ := herr
  have hprep : prepareRequest s b64 = Except.error e := by
    simp [prepareRequest, he]
  refine ⟨by simp [hprep, isErrorResult], ?_⟩
  intro n1 n2
  simp [postInvoiceModel, hprep]

/-- C9 (witness): the amended theorem applied to the all-empty settings,
with two different network oracles. -/
theorem c9_config_error_blocks_network_witness :
    effectiveClientId cS9e = ""
    ∧ isErrorResult (prepareRequest cS9e "p") = true
    ∧ postInvoiceModel cS9e "p" cNet200 = postInvoiceModel cS9e "p" cNet500 := by
  have H := c9_config_error_blocks_network cS9e "p" (Or.inl (by decide))
  exact ⟨by decide, H.1, H.2 cNet200 cNet500⟩

/-- C10: when the invoice carries no stored authority UUID, the build emits
exactly the externally supplied fresh random value, leaves the invoice
record (and hence its empty UUID) unchanged, and two builds with different
fresh values emit different UUID elements — the build is nondeterministic
and never persists a UUID itself; the reconciliation step is the only writer
and sets it only to the value extracted from an authority response. -/
theorem c10_fresh_uuid_each_build (doc : SalesInvoice) (u1 u2 : String)
    (h : doc.jofotara_uuid = "") (hne : u1 ≠ u2) :
    (buildInvoiceXml doc u1).1.uuid = u1
    ∧ (buildInvoiceXml doc u1).1.uuid ≠ (buildInvoiceXml doc u2).1.uuid
    ∧ (buildInvoiceXml doc u1).2 = doc
    ∧ ∀ resp nowS,
        (applyResponseToInvoice doc resp nowS).jofotara_uuid = doc.jofotara_uuid
        ∨ (applyResponseToInvoice doc resp nowS).jofotara_uuid = extractUuid resp := by
  have h1 : (buildInvoiceXml doc u1).1.uuid = u1 := by simp [buildInvoiceXml, h]
  have h2 : (buildInvoiceXml doc u2).1.uuid = u2 := by simp [buildInvoiceXml, h]
  refine ⟨h1, by rw [h1, h2]; exact hne, rfl, ?_⟩
  intro resp nowS
  by_cases hu : extractUuid resp ≠ ""
  · right; simp [applyResponseToInvoice, hu]
  · left
    simp only [ne_eq, not_not] at hu
    simp [applyResponseToInvoice, hu]

/-- C10 (witness): the theorem applied to `c10doc` with fresh values "a"
and "b" and the response `c10resp`. -/
theorem c10_fresh_uuid_each_build_witness :
    (buildInvoiceXml c10doc "a").1.uuid = "a"
    ∧ (buildInvoiceXml c10doc "a").1.uuid ≠ (buildInvoiceXml c10doc "b").1.uuid
    ∧ (buildInvoiceXml c10doc "a").2 = c10doc
    ∧ ((applyResponseToInvoice c10doc c10resp "t").jofotara_uuid = c10doc.jofotara_uuid
        ∨ (applyResponseToInvoice c10doc c10resp "t").jofotara_uuid = extractUuid c10resp) := by
  have H := c10_fresh_uuid_each_build c10doc "a" "b" rfl (by decide)
  exact ⟨H.1, H.2.1, H.2.2.1, H.2.2.2 c10resp "t"⟩

end JoFotara
